import Mathlib

/-!
Shallow embedding of `src/app/main.py` (FACEIT Pro Tracker API) and
verification of its specification claims.

The module-level Python code is embedded as pure Lean functions.  Python
dictionaries coming from JSON are modelled as typed structures with
`Option` fields for keys that may be absent, and raw per-player statistic
mappings (`player_stats`) as association lists over a Python-value type
`PyVal`.  Fallible Python code (functions that may raise) is embedded in
`Except Err`.  Python floats are modelled as rationals.
-/

namespace ProTracker

/-- Values that can appear in a parsed-JSON statistics mapping:
`None`, strings, ints and floats (floats modelled as rationals). -/
inductive PyVal where
  | vNone : PyVal
  | vStr (s : String) : PyVal
  | vInt (n : Int) : PyVal
  | vFloat (q : ℚ) : PyVal
deriving DecidableEq, Repr

/-- Python truthiness: `None`, `""`, `0` and `0.0` are falsy. -/
def pyTruthy : PyVal → Bool
  | .vNone => false
  | .vStr s => s ≠ ""
  | .vInt n => n ≠ 0
  | .vFloat q => q ≠ 0

/-- Python `x or y`: `x` when truthy, else `y`. -/
def pyOr (x y : PyVal) : PyVal := if pyTruthy x then x else y

/-- Exceptions that the embedded code can raise. -/
inductive Err where
  | httpExc (status : Nat) (detail : String) : Err
  | requestExc : Err
  | valueError (arg : String) : Err
  | typeError : Err
deriving DecidableEq, Repr

def digitsToNat (l : List Char) : Nat :=
  l.foldl (fun a c => a * 10 + (c.toNat - 48)) 0

def allDigits (l : List Char) : Bool := l.all Char.isDigit

/-- Whitespace characters removed by Python's default `str.strip`. -/
def isWs (c : Char) : Bool :=
  c = ' ' ∨ c = '\t' ∨ c = '\n' ∨ c = '\r' ∨ c = '\x0b' ∨ c = '\x0c'

/-- Surrounding-whitespace removal performed by Python's numeric
string constructors. -/
def trimChars (l : List Char) : List Char :=
  (((l.dropWhile isWs).reverse).dropWhile isWs).reverse

/-- Decimal integer literal accepted by Python `int(str)`
(surrounding whitespace already removed, optional sign, digits).
Underscore separators and non-decimal bases are not modelled. -/
def pyParseIntChars : List Char → Option Int
  | '+' :: rest =>
      if rest ≠ [] ∧ allDigits rest then some (digitsToNat rest : Int) else none
  | '-' :: rest =>
      if rest ≠ [] ∧ allDigits rest then some (-(digitsToNat rest : Int)) else none
  | l => if l ≠ [] ∧ allDigits l then some (digitsToNat l : Int) else none

def pyParseInt (s : String) : Option Int := pyParseIntChars (trimChars s.data)

def splitOnDotAux : List Char → List Char → List (List Char)
  | [], acc => [acc.reverse]
  | c :: rest, acc =>
      if c = '.' then acc.reverse :: splitOnDotAux rest []
      else splitOnDotAux rest (c :: acc)

/-- Split at the `.` separators of a float literal. -/
def splitOnDot (l : List Char) : List (List Char) := splitOnDotAux l []

/-- Unsigned part of a Python float literal: digits with an optional
dot, at least one digit overall.  Exponents, `inf` and `nan` are not
modelled (the upstream stat strings never use them). -/
def pyParseFloatMag (l : List Char) : Option ℚ :=
  match splitOnDot l with
  | [a] => if a ≠ [] ∧ allDigits a then some (digitsToNat a : ℚ) else none
  | [a, b] =>
      if (a ≠ [] ∨ b ≠ []) ∧ allDigits a ∧ allDigits b then
        some ((digitsToNat a : ℚ) + (digitsToNat b : ℚ) / (10 ^ b.length))
      else none
  | _ => none

/-- Decimal literal accepted by Python `float(str)` (whitespace
stripped, optional sign, digits with optional fractional part). -/
def pyParseFloat (s : String) : Option ℚ :=
  match trimChars s.data with
  | '+' :: rest => pyParseFloatMag rest
  | '-' :: rest => (pyParseFloatMag rest).map Neg.neg
  | l => pyParseFloatMag l

/-- Truncation toward zero, as Python `int(float)`. -/
def pyTrunc (q : ℚ) : Int := if 0 ≤ q then ⌊q⌋ else ⌈q⌉

/-- Python `int(x)` on a `PyVal`: raises `TypeError` on `None`,
`ValueError` on a non-integer string, truncates a float. -/
def pyInt : PyVal → Except Err Int
  | .vNone => .error .typeError
  | .vStr s =>
      match pyParseInt s with
      | some n => .ok n
      | none => .error (.valueError s)
  | .vInt n => .ok n
  | .vFloat q => .ok (pyTrunc q)

/-- Python `float(x)` on a `PyVal`. -/
def pyFloat : PyVal → Except Err ℚ
  | .vNone => .error .typeError
  | .vStr s =>
      match pyParseFloat s with
      | some q => .ok q
      | none => .error (.valueError s)
  | .vInt n => .ok (n : ℚ)
  | .vFloat q => .ok q

/-- Nearest integer with ties to even, as Python `round`. -/
def roundHalfEven (q : ℚ) : Int :=
  if q - ⌊q⌋ < 1 / 2 then ⌊q⌋
  else if q - ⌊q⌋ > 1 / 2 then ⌊q⌋ + 1
  else if ⌊q⌋ % 2 = 0 then ⌊q⌋ else ⌊q⌋ + 1

/-- Python `round(x, 2)`. -/
def round2 (q : ℚ) : ℚ := (roundHalfEven (q * 100) : ℚ) / 100

/-- Python `round(x, 1)`. -/
def round1 (q : ℚ) : ℚ := (roundHalfEven (q * 10) : ℚ) / 10

/-- Lookup in an association list modelling `dict.get(k)`. -/
def dictGet (d : List (String × PyVal)) (k : String) : Option PyVal :=
  (d.find? (fun p => p.1 = k)).map (fun p => p.2)

/-- Python `d.get(name, default)`, the local helper `f` of
`_find_player_stats_in_round`. -/
def statGet (ps : List (String × PyVal)) (name : String) (dflt : PyVal) : PyVal :=
  (dictGet ps name).getD dflt

/-- One roster entry of `rounds[*].teams[*].players[*]` in a `/stats`
payload.  `Option` fields model possibly-absent JSON keys. -/
structure StatsPlayer where
  player_id : Option String
  nickname : Option String
  game_player_id : Option String
  game_player_name : Option String
  faceit_url : Option String
  player_stats : List (String × PyVal)
deriving DecidableEq, Repr

/-- One entry of `rounds[*].teams` in a `/stats` payload; `team_stats`
holds display strings such as the team name. -/
structure StatsTeam where
  team_id : Option String
  team_stats : List (String × String)
  players : List StatsPlayer
deriving DecidableEq, Repr

/-- One entry of `rounds` in a `/stats` payload. -/
structure StatsRound where
  round_stats : List (String × String)
  teams : List StatsTeam
deriving DecidableEq, Repr

/-- Parsed `/matches/{id}/stats` payload. -/
structure StatsJson where
  rounds : List StatsRound
deriving DecidableEq, Repr

/-- String-valued `dict.get` with default, for `round_stats` /
`team_stats`. -/
def sdictGet (d : List (String × String)) (k : String) (dflt : String) : String :=
  ((d.find? (fun p => p.1 = k)).map (fun p => p.2)).getD dflt

/-- Personal stat line assembled by `_find_player_stats_in_round`
(the dict it returns for the matched player). -/
structure PlayerOut where
  nickname : Option String
  kills : Int
  deaths : Int
  assists : Int
  adr : ℚ
  hs : ℚ
  kd : ℚ
  kr : ℚ
  raw : List (String × PyVal)
deriving DecidableEq, Repr

/-- Embeds `kd = round((kills / deaths) if deaths else float(kills), 2)`
from `_find_player_stats_in_round`. -/
def computeKd (kills deaths : Int) : ℚ :=
  round2 (if deaths ≠ 0 then (kills : ℚ) / (deaths : ℚ) else (kills : ℚ))

/-- Embeds the stat-extraction block of `_find_player_stats_in_round`
(lines 263-288 of `src/app/main.py`), run once the requesting player is
found: each Python statement that may raise is a `match` on `Except`,
in source order. -/
def extractPlayerStats (nick : Option String) (ps : List (String × PyVal)) :
    Except Err PlayerOut :=
  match pyInt (pyOr (statGet ps "Kills" (statGet ps "K" (.vInt 0))) (.vInt 0)) with
  | .error e => .error e
  | .ok kills =>
  match pyInt (pyOr (statGet ps "Deaths" (.vInt 0)) (.vInt 0)) with
  | .error e => .error e
  | .ok deaths =>
  match pyInt (pyOr (statGet ps "Assists" (.vInt 0)) (.vInt 0)) with
  | .error e => .error e
  | .ok assists =>
  match pyFloat (pyOr (statGet ps "ADR" (.vFloat 0)) (.vFloat 0)) with
  | .error e => .error e
  | .ok adr =>
  match pyFloat (pyOr (statGet ps "Headshots %" (statGet ps "HS %" (.vFloat 0))) (.vFloat 0)) with
  | .error e => .error e
  | .ok hs =>
  match pyFloat (pyOr (statGet ps "K/R Ratio" (.vFloat 0)) (.vFloat 0)) with
  | .error e => .error e
  | .ok _kast =>
  match pyFloat (pyOr (statGet ps "K/R Ratio" (.vFloat 0)) (.vFloat 0)) with
  | .error e => .error e
  | .ok kr =>
    .ok
      { nickname := nick
        kills := kills
        deaths := deaths
        assists := assists
        adr := round1 adr
        hs := round1 hs
        kd := computeKd kills deaths
        kr := round2 kr
        raw := ps }

/-- Scan of one team's `players` list by `_find_player_stats_in_round`:
the first entry whose `player_id` equals the requested id is extracted;
`ok none` means "not in this team, keep scanning". -/
def findInPlayers (pid : String) : List StatsPlayer → Except Err (Option PlayerOut)
  | [] => .ok none
  | p :: rest =>
      if p.player_id = some pid then
        match extractPlayerStats p.nickname p.player_stats with
        | .error e => .error e
        | .ok out => .ok (some out)
      else findInPlayers pid rest

/-- Scan of the first round's `teams` list by
`_find_player_stats_in_round`. -/
def findInTeams (pid : String) : List StatsTeam → Except Err (Option PlayerOut)
  | [] => .ok none
  | t :: rest =>
      match findInPlayers pid t.players with
      | .error e => .error e
      | .ok (some out) => .ok (some out)
      | .ok none => findInTeams pid rest

/-- Embeds `_find_player_stats_in_round`: empty `rounds` yields `None`,
otherwise the first round's rosters are scanned for `player_id`. -/
def findPlayerStatsInRound (stats : StatsJson) (player_id : String) :
    Except Err (Option PlayerOut) :=
  match stats.rounds with
  | [] => .ok none
  | r0 :: _ => findInTeams player_id r0.teams

/-- One player summary inside a team of an emitted record (both the
stats path and the basic-match fallback emit this key set).  On the
stats path `avatar` comes from the raw `player_stats` mapping, so it is
kept as a `PyVal`. -/
structure PlayerSummary where
  player_id : Option String
  nickname : Option String
  avatar : PyVal
  skill_level : Option Int
  game_player_id : Option String
  game_player_name : Option String
  faceit_url : Option String
deriving DecidableEq, Repr

/-- One team summary inside an emitted record. -/
structure TeamOut where
  team_id : Option String
  nickname : String
  avatar : String
  type : String
  players : List PlayerSummary
deriving DecidableEq, Repr

/-- Embeds `_extract_summary_from_stats`: `(map, score, teams)` from a
`/stats` payload, with `("-", "-", [])` when `rounds` is empty. -/
def extractSummaryFromStats (stats_json : StatsJson) : String × String × List TeamOut :=
  match stats_json.rounds with
  | [] => ("-", "-", [])
  | r0 :: _ =>
      let map_name := sdictGet r0.round_stats "Map" "-"
      let score := sdictGet r0.round_stats "Score" "-"
      let teams := r0.teams.map (fun t =>
        { team_id := t.team_id
          nickname := sdictGet t.team_stats "Team" (t.team_id.getD "")
          avatar := ""
          type := ""
          players := t.players.map (fun p =>
            { player_id := p.player_id
              nickname := p.nickname
              avatar := (dictGet p.player_stats "Avatar").getD (.vStr "")
              skill_level := none
              game_player_id := p.game_player_id
              game_player_name := p.game_player_name
              faceit_url := p.faceit_url }) })
      (map_name, score, teams)

/-- One roster entry of `faction1/faction2` in a `/matches/{id}`
payload. -/
structure MatchRoster where
  player_id : Option String
  nickname : Option String
  avatar : Option String
  skill_level : Option Int
  game_player_id : Option String
  game_player_name : Option String
  faceit_url : Option String
deriving DecidableEq, Repr

/-- One faction of a `/matches/{id}` payload. -/
structure Faction where
  team_id : Option String
  nickname : Option String
  avatar : Option String
  roster : List MatchRoster
deriving DecidableEq, Repr

/-- Parsed `/matches/{id}` payload.  `voting_map_entities` models the
`voting.map.entities[*].name` path: `none` when any step of the path is
missing, the entity-name list otherwise. -/
structure MatchJson where
  voting_map_entities : Option (List (Option String))
  faction1 : Option Faction
  faction2 : Option Faction
deriving DecidableEq, Repr

/-- The empty dict substituted by `match_json or {}`. -/
def MatchJson.empty : MatchJson :=
  { voting_map_entities := none, faction1 := none, faction2 := none }

/-- Team summary built by `_extract_summary_from_match` from one
faction. -/
def factionToTeamOut (t : Faction) : TeamOut :=
  { team_id := t.team_id
    nickname := t.nickname.getD (t.team_id.getD "")
    avatar := t.avatar.getD ""
    type := ""
    players := t.roster.map (fun p =>
      { player_id := p.player_id
        nickname := p.nickname
        avatar := .vStr (p.avatar.getD "")
        skill_level := p.skill_level
        game_player_id := p.game_player_id
        game_player_name := p.game_player_name
        faceit_url := p.faceit_url }) }

/-- Embeds `_extract_summary_from_match`: best-effort `(map, score,
teams)` from the basic `/matches/{id}` payload; `score` is always the
`"-"` sentinel there. -/
def extractSummaryFromMatch (match_json : MatchJson) : String × String × List TeamOut :=
  let map_name :=
    match match_json.voting_map_entities with
    | some (e0 :: _) => e0.getD "-"
    | _ => "-"
  let teams :=
    (match match_json.faction1 with
     | some t => [factionToTeamOut t]
     | none => []) ++
    (match match_json.faction2 with
     | some t => [factionToTeamOut t]
     | none => [])
  (map_name, "-", teams)

/-- One item of the `/players/{id}/history` list. -/
structure HistoryItem where
  match_id : Option String
  started_at : Option Int
  finished_at : Option Int
  game : Option String
deriving DecidableEq, Repr

/-- Result of a call to `http_get` for one endpoint: either the
response the loop returned (status, parsed body, text) or the exception
it raised (a re-raised `requests` exception, or the 502
`HTTPException` after exhausted retries). -/
inductive FetchOutcome (α : Type) where
  | resp (status : Nat) (body : α) (text : String) : FetchOutcome α
  | exc (e : Err) : FetchOutcome α
deriving DecidableEq, Repr

/-- Upstream world a request runs against: the configured key and the
`http_get` outcome for each endpoint (per match id for the two match
endpoints).  A status-200 body is assumed to parse as a non-empty JSON
object of the given shape. -/
structure Env where
  hasKey : Bool
  historyResp : FetchOutcome (Option (List HistoryItem))
  statsResp : Option String → FetchOutcome StatsJson
  basicResp : Option String → FetchOutcome MatchJson

/-- Embeds `_check_key`. -/
def checkKey (hasKey : Bool) : Except Err Unit :=
  if hasKey then .ok ()
  else .error (.httpExc 500 "FACEIT_API_KEY is missing. Please set it on your server.")

/-- Embeds `get_history`: non-200 is an empty list for 404 and raises
otherwise; a missing or null `items` key degrades to the empty list. -/
def getHistory (e : Env) : Except Err (List HistoryItem) :=
  match checkKey e.hasKey with
  | .error err => .error err
  | .ok _ =>
      match e.historyResp with
      | .exc err => .error err
      | .resp s body text =>
          if s ≠ 200 then
            if s = 404 then .ok [] else .error (.httpExc s text)
          else .ok (body.getD [])

/-- Embeds `get_match_stats`: 200 yields the payload, 403/404 yield
`(None, "not_ready_or_hidden")`, anything else raises. -/
def getMatchStats (e : Env) (match_id : Option String) :
    Except Err (Option StatsJson × Option String) :=
  match checkKey e.hasKey with
  | .error err => .error err
  | .ok _ =>
      match e.statsResp match_id with
      | .exc err => .error err
      | .resp s body text =>
          if s = 200 then .ok (some body, none)
          else if s = 403 ∨ s = 404 then .ok (none, some "not_ready_or_hidden")
          else .error (.httpExc s text)

/-- Embeds `get_match_basic`: 200 yields the payload, 404 yields
`(None, "match_not_found")`, anything else raises. -/
def getMatchBasic (e : Env) (match_id : Option String) :
    Except Err (Option MatchJson × Option String) :=
  match checkKey e.hasKey with
  | .error err => .error err
  | .ok _ =>
      match e.basicResp match_id with
      | .exc err => .error err
      | .resp s body text =>
          if s = 200 then .ok (some body, none)
          else if s = 404 then .ok (none, some "match_not_found")
          else .error (.httpExc s text)

/-- One record of the list returned by `/matches/with_stats`. -/
structure MatchRecord where
  match_id : Option String
  game : String
  started_at : Option Int
  finished_at : Option Int
  map : String
  score : String
  teams : List TeamOut
  player : Option PlayerOut
  stats_unavailable_reason : Option String
deriving DecidableEq, Repr

/-- Keys of the record dict literals emitted by `matches_with_stats`
(lines 430-440 and 448-458 of `src/app/main.py`; both branches emit the
same key set). -/
def matchRecordKeys : List String :=
  ["match_id", "game", "started_at", "finished_at", "map", "score", "teams",
   "player", "stats_unavailable_reason"]

/-- Record dict literal of the stats branch of `matches_with_stats`
(lines 430-440); the emitted reason is literally
`None if player_stats else None` there. -/
def statsPathRecord (it : HistoryItem) (s : String × String × List TeamOut)
    (player_stats : Option PlayerOut) : MatchRecord :=
  { match_id := it.match_id
    game := it.game.getD "cs2"
    started_at := it.started_at
    finished_at := it.finished_at
    map := s.1
    score := s.2.1
    teams := s.2.2
    player := player_stats
    stats_unavailable_reason := if player_stats.isSome then none else none }

/-- Record dict literal of the basic-fallback branch of
`matches_with_stats` (lines 448-458). -/
def fallbackRecord (it : HistoryItem) (s : String × String × List TeamOut)
    (reason : Option String) : MatchRecord :=
  { match_id := it.match_id
    game := it.game.getD "cs2"
    started_at := it.started_at
    finished_at := it.finished_at
    map := s.1
    score := s.2.1
    teams := s.2.2
    player := none
    stats_unavailable_reason := reason }

/-- Embeds the per-item loop of `matches_with_stats`: for each history
item, try `/stats` first, else fall back to `/matches/{id}`; any
raised exception propagates, aborting the loop. -/
def matchesLoop (e : Env) (player_id : String) :
    List HistoryItem → Except Err (List MatchRecord)
  | [] => .ok []
  | it :: rest =>
      match getMatchStats e it.match_id with
      | .error err => .error err
      | .ok (some stats_json, _) =>
          match findPlayerStatsInRound stats_json player_id with
          | .error err => .error err
          | .ok player_stats =>
              match matchesLoop e player_id rest with
              | .error err => .error err
              | .ok recs =>
                  .ok (statsPathRecord it (extractSummaryFromStats stats_json)
                        player_stats :: recs)
      | .ok (none, reason) =>
          match getMatchBasic e it.match_id with
          | .error err => .error err
          | .ok (match_json, _) =>
              match matchesLoop e player_id rest with
              | .error err => .error err
              | .ok recs =>
                  .ok (fallbackRecord it
                        (extractSummaryFromMatch (match_json.getD MatchJson.empty))
                        reason :: recs)

/-- Embeds the `/matches/with_stats` endpoint `matches_with_stats`
(lines 403-461): fetch the history, then enrich each item in order. -/
def matchesWithStats (e : Env) (player_id : String) : Except Err (List MatchRecord) :=
  match getHistory e with
  | .error err => .error err
  | .ok items => matchesLoop e player_id items

/-- Outcome of one underlying `requests.get` call inside `http_get`:
a response with a status and text, or a raised network-level
`requests.RequestException`. -/
inductive Attempt where
  | resp (status : Nat) (text : String) : Attempt
  | netExc : Attempt
deriving DecidableEq, Repr

/-- Statuses `http_get` retries on: `(429, 500, 502, 503, 504)`. -/
def retryableStatus (s : Nat) : Bool :=
  s = 429 ∨ s = 500 ∨ s = 502 ∨ s = 503 ∨ s = 504

instance instDecEqExcept {ε α : Type} [DecidableEq ε] [DecidableEq α] :
    DecidableEq (Except ε α)
  | .error e1, .error e2 =>
      if h : e1 = e2 then .isTrue (by rw [h])
      else .isFalse (fun he => by cases he; exact h rfl)
  | .error _, .ok _ => .isFalse (fun he => Except.noConfusion he)
  | .ok _, .error _ => .isFalse (fun he => Except.noConfusion he)
  | .ok a, .ok b =>
      if h : a = b then .isTrue (by rw [h])
      else .isFalse (fun he => by cases he; exact h rfl)

/-- Observable outcome of `http_get`: the returned response (status,
text) or raised exception, together with the back-off sleeps performed
and the number of `requests.get` attempts consumed. -/
structure GetOutcome where
  result : Except Err (Nat × String)
  sleeps : List ℚ
  attemptsUsed : Nat
deriving DecidableEq, Repr

/-- Embeds the `for attempt in range(3)` loop of `http_get`, recursing
on the number of remaining iterations; `used` is the attempt index,
and falling out of the loop raises the 502 `HTTPException`. -/
def httpGetGo (f : Nat → Attempt) : Nat → Nat → List ℚ → GetOutcome
  | 0, used, sleeps =>
      { result := .error (.httpExc 502 "Network error when calling Faceit API")
        sleeps := sleeps.reverse
        attemptsUsed := used }
  | remaining + 1, used, sleeps =>
      match f used with
      | .resp s text =>
          if retryableStatus s then
            httpGetGo f remaining (used + 1) (6 / 10 * ((used : ℚ) + 1) :: sleeps)
          else
            { result := .ok (s, text), sleeps := sleeps.reverse, attemptsUsed := used + 1 }
      | .netExc =>
          if used = 2 then
            { result := .error .requestExc, sleeps := sleeps.reverse, attemptsUsed := used + 1 }
          else
            httpGetGo f remaining (used + 1) (4 / 10 * ((used : ℚ) + 1) :: sleeps)

/-- Embeds `http_get` (lines 129-144): three attempts against the
per-attempt outcomes `f`. -/
def httpGet (f : Nat → Attempt) : GetOutcome := httpGetGo f 3 0 []

/-- Clamp of `x` to `[lo, hi]`. -/
def clampQ (x lo hi : ℚ) : ℚ := max lo (min x hi)

/-- Modelled from the spec: the Rating Estimator of spec section 4.3 is
not present under `src/` (only this one module of the repository is);
its primary formulation is embedded from the spec's words: absent when
`kills <= 0` or `killsPerRound <= 0`; otherwise rounds played is
`max(kills / killsPerRound, deaths, 1.0)`, deaths-per-round is clamped
to `[0, 1.5]`, the components `killsPerRound / 0.679`,
`(1 - dpr) / (1 - 0.317)` and `adr / 85.0` are averaged, the result is
clamped to `[0.1, 2.5]` and rounded to 2 decimal places. -/
def estimateRating (kills deaths killsPerRound adr : ℚ) : Option ℚ :=
  if kills ≤ 0 ∨ killsPerRound ≤ 0 then none
  else
    let roundsPlayed := max (kills / killsPerRound) (max deaths 1)
    let dpr := clampQ (deaths / roundsPlayed) 0 (3 / 2)
    let avg := (killsPerRound / (679 / 1000) + (1 - dpr) / (1 - 317 / 1000) + adr / 85) / 3
    some (round2 (clampQ avg (1 / 10) (5 / 2)))

/-- Property-side predicate: the requesting player id appears as the
`player_id` of some roster entry of some team of the first round. -/
def inFirstRoundRoster (stats : StatsJson) (pid : String) : Bool :=
  match stats.rounds with
  | [] => false
  | r0 :: _ => r0.teams.any (fun t => t.players.any (fun p => p.player_id = some pid))

/-- Success test for `Except`. -/
def isOkE {α : Type} (x : Except Err α) : Bool :=
  match x with
  | .ok _ => true
  | .error _ => false

/-- Property-side predicate: a raw stat value that the extraction block
cannot raise on — falsy (so the `or` fallback replaces it) or parsing
as both an int and a float. -/
def safeVal (v : PyVal) : Bool :=
  !(pyTruthy v) || (isOkE (pyInt v) && isOkE (pyFloat v))

/-- History item fixture for match "M1". -/
def itM1 : HistoryItem :=
  { match_id := some "M1", started_at := some 100, finished_at := some 200,
    game := some "cs2" }

/-- History item fixture for match "M2". -/
def itM2 : HistoryItem :=
  { match_id := some "M2", started_at := some 300, finished_at := some 400,
    game := some "cs2" }

/-- Roster entry fixture for the requesting player "p1". -/
def entryP1 : StatsPlayer :=
  { player_id := some "p1", nickname := some "alice", game_player_id := none,
    game_player_name := none, faceit_url := none,
    player_stats :=
      [("Kills", .vInt 22), ("Deaths", .vInt 14), ("ADR", .vStr "78.5"),
       ("K/R Ratio", .vStr "0.81")] }

/-- Roster entry fixture for an unrelated player "p2". -/
def entryP2 : StatsPlayer :=
  { player_id := some "p2", nickname := some "carol", game_player_id := none,
    game_player_name := none, faceit_url := none,
    player_stats := [("Kills", .vInt 9), ("Deaths", .vInt 16)] }

/-- Stats payload fixture whose first round's rosters contain "p1". -/
def sjRoster : StatsJson :=
  { rounds :=
      [{ round_stats := [("Map", "de_mirage"), ("Score", "13 / 7")],
         teams :=
           [{ team_id := some "t1", team_stats := [("Team", "Alpha")],
              players := [entryP1] },
            { team_id := some "t2", team_stats := [("Team", "Beta")],
              players := [entryP2] }] }] }

/-- Stats payload fixture whose first round's rosters do not contain
"p1". -/
def sjNoPlayer : StatsJson :=
  { rounds :=
      [{ round_stats := [("Map", "de_nuke"), ("Score", "5 / 13")],
         teams :=
           [{ team_id := some "t1", team_stats := [("Team", "Alpha")],
              players := [entryP2] }] }] }

/-- Basic `/matches/{id}` payload fixture. -/
def basicMj : MatchJson :=
  { voting_map_entities := some [some "de_inferno"],
    faction1 := some
      { team_id := some "t1", nickname := some "Alpha", avatar := some "",
        roster :=
          [{ player_id := some "p1", nickname := some "alice", avatar := some "",
             skill_level := some 7, game_player_id := none,
             game_player_name := none, faceit_url := none }] },
    faction2 := none }

/-- Environment fixture: one match, statistics available, requesting
player absent from every roster. -/
def envC1 : Env :=
  { hasKey := true
    historyResp := .resp 200 (some [itM1]) ""
    statsResp := fun _ => .resp 200 sjNoPlayer ""
    basicResp := fun _ => .exc .requestExc }

/-- Environment fixture: two matches; "M1"'s statistics fetch returns
an unexpected 400, "M2"'s succeeds with "p1" on a roster. -/
def envC2 : Env :=
  { hasKey := true
    historyResp := .resp 200 (some [itM1, itM2]) ""
    statsResp := fun mid =>
      if mid = some "M1" then .resp 400 { rounds := [] } "bad"
      else .resp 200 sjRoster ""
    basicResp := fun _ => .exc .requestExc }

/-- Environment fixture: one match whose statistics fetch returns 403
and whose basic fetch succeeds. -/
def envC7 : Env :=
  { hasKey := true
    historyResp := .resp 200 (some [itM1]) ""
    statsResp := fun _ => .resp 403 { rounds := [] } "forbidden"
    basicResp := fun _ => .resp 200 basicMj "" }

/-- Environment fixture: one match, statistics available, requesting
player on a roster. -/
def envW1 : Env :=
  { hasKey := true
    historyResp := .resp 200 (some [itM1]) ""
    statsResp := fun _ => .resp 200 sjRoster ""
    basicResp := fun _ => .exc .requestExc }

/-- Environment fixture: two matches, "M1" enriched from statistics and
"M2" through the basic fallback. -/
def envW8 : Env :=
  { hasKey := true
    historyResp := .resp 200 (some [itM1, itM2]) ""
    statsResp := fun mid =>
      if mid = some "M1" then .resp 200 sjRoster ""
      else .resp 403 { rounds := [] } "forbidden"
    basicResp := fun _ => .resp 200 basicMj "" }

/-- List of records of a successful result, empty on error. -/
def okRecords (x : Except Err (List MatchRecord)) : List MatchRecord :=
  match x with
  | .ok l => l
  | .error _ => []

/-- Placeholder record used as a `headD` default below. -/
def defaultRecord : MatchRecord :=
  { match_id := none, game := "", started_at := none, finished_at := none,
    map := "", score := "", teams := [], player := none,
    stats_unavailable_reason := none }

/-- First record enriched for `envW1`. -/
def recW1 : MatchRecord :=
  (okRecords (matchesLoop envW1 "p1" [itM1])).headD defaultRecord

/-- First record enriched for `envC7`. -/
def recC7 : MatchRecord :=
  (okRecords (matchesLoop envC7 "p1" [itM1])).headD defaultRecord

/-- Records enriched for `envW8`. -/
def recsW8 : List MatchRecord := okRecords (matchesWithStats envW8 "p1")

/-- Placeholder stat line used as a `getD` default below. -/
def defaultPlayerOut : PlayerOut :=
  { nickname := none, kills := 0, deaths := 0, assists := 0, adr := 0, hs := 0,
    kd := 0, kr := 0, raw := [] }

/-- Stat line of "p1" in `sjRoster`. -/
def outW10 : PlayerOut :=
  (match findPlayerStatsInRound sjRoster "p1" with
   | .ok o => o
   | .error _ => none).getD defaultPlayerOut

end ProTracker

namespace ProTracker

theorem roundHalfEven_intCast (m : ℤ) : roundHalfEven ((m : ℚ)) = m := by
  unfold roundHalfEven
  rw [Int.floor_intCast]
  rw [if_pos (by norm_num)]

theorem round2_intCast (m : ℤ) : round2 ((m : ℚ)) = (m : ℚ) := by
  unfold round2
  have h : ((m : ℚ)) * 100 = ((m * 100 : ℤ) : ℚ) := by push_cast; ring
  rw [h, roundHalfEven_intCast]
  push_cast
  ring

theorem computeKd_zero (k : ℤ) : computeKd k 0 = (k : ℚ) := by
  unfold computeKd
  rw [if_neg (by simp)]
  exact round2_intCast k

theorem computeKd_ne (k d : ℤ) (hd : d ≠ 0) :
    computeKd k d = round2 ((k : ℚ) / (d : ℚ)) := by
  unfold computeKd
  rw [if_pos hd]

theorem isOkE_iff {α : Type} (x : Except Err α) : isOkE x = true ↔ ∃ a, x = .ok a := by
  cases x <;> simp [isOkE]

theorem extract_ok_kd (nick : Option String) (ps : List (String × PyVal))
    (out : PlayerOut) (h : extractPlayerStats nick ps = .ok out) :
    out.kd = computeKd out.kills out.deaths := by
  unfold extractPlayerStats at h
  repeat' split at h
  all_goals first
    | exact Except.noConfusion h
    | (injection h with h2; subst h2; rfl)

end ProTracker

namespace ProTracker

theorem findInPlayers_ok_isSome (pid : String) (l : List StatsPlayer)
    (res : Option PlayerOut) (h : findInPlayers pid l = .ok res) :
    res.isSome = l.any (fun p => p.player_id = some pid) := by
  induction l with
  | nil =>
      have h2 : Except.ok (none : Option PlayerOut) = Except.ok res := h
      injection h2 with h3
      subst h3
      simp
  | cons p rest ih =>
      unfold findInPlayers at h
      by_cases hp : p.player_id = some pid
      · rw [if_pos hp] at h
        cases hx : extractPlayerStats p.nickname p.player_stats with
        | error e => rw [hx] at h; exact Except.noConfusion h
        | ok o =>
            rw [hx] at h
            have h2 : Except.ok (some o) = Except.ok res := h
            injection h2 with h3
            subst h3
            simp [hp]
      · rw [if_neg hp] at h
        have h2 := ih h
        simp [hp, h2]
  
theorem findInPlayers_some_extract (pid : String) (l : List StatsPlayer)
    (out : PlayerOut) (h : findInPlayers pid l = .ok (some out)) :
    ∃ p : StatsPlayer, extractPlayerStats p.nickname p.player_stats = .ok out := by
  induction l with
  | nil =>
      have h2 : Except.ok (none : Option PlayerOut) = Except.ok (some out) := h
      injection h2 with h3
      exact Option.noConfusion h3
  | cons p rest ih =>
      unfold findInPlayers at h
      by_cases hp : p.player_id = some pid
      · rw [if_pos hp] at h
        cases hx : extractPlayerStats p.nickname p.player_stats with
        | error e => rw [hx] at h; exact Except.noConfusion h
        | ok o =>
            rw [hx] at h
            have h2 : Except.ok (some o) = Except.ok (some out) := h
            injection h2 with h3
            injection h3 with h4
            exact ⟨p, by rw [hx, h4]⟩
      · rw [if_neg hp] at h
        exact ih h

theorem findInTeams_ok_isSome (pid : String) (l : List StatsTeam)
    (res : Option PlayerOut) (h : findInTeams pid l = .ok res) :
    res.isSome = l.any (fun t => t.players.any (fun p => p.player_id = some pid)) := by
  induction l with
  | nil =>
      have h2 : Except.ok (none : Option PlayerOut) = Except.ok res := h
      injection h2 with h3
      subst h3
      simp
  | cons t rest ih =>
      unfold findInTeams at h
      cases hx : findInPlayers pid t.players with
      | error e => rw [hx] at h; exact Except.noConfusion h
      | ok o =>
          rw [hx] at h
          cases o with
          | some out =>
              have h2 : Except.ok (some out) = Except.ok res := h
              injection h2 with h3
              subst h3
              have h4 := findInPlayers_ok_isSome pid t.players (some out) hx
              simp at h4
              simp [h4]
          | none =>
              have h2 : findInTeams pid rest = .ok res := h
              have h4 : (t.players.any fun p => p.player_id = some pid) = false := by
                rw [← findInPlayers_ok_isSome pid t.players none hx]
                rfl
              rw [ih h2, List.any_cons, h4, Bool.false_or]

theorem findInTeams_some_extract (pid : String) (l : List StatsTeam)
    (out : PlayerOut) (h : findInTeams pid l = .ok (some out)) :
    ∃ p : StatsPlayer, extractPlayerStats p.nickname p.player_stats = .ok out := by
  induction l with
  | nil =>
      have h2 : Except.ok (none : Option PlayerOut) = Except.ok (some out) := h
      injection h2 with h3
      exact Option.noConfusion h3
  | cons t rest ih =>
      unfold findInTeams at h
      cases hx : findInPlayers pid t.players with
      | error e => rw [hx] at h; exact Except.noConfusion h
      | ok o =>
          rw [hx] at h
          cases o with
          | some o2 =>
              have h2 : Except.ok (some o2) = Except.ok (some out) := h
              injection h2 with h3
              injection h3 with h4
              exact h4 ▸ findInPlayers_some_extract pid t.players o2 hx
          | none =>
              exact ih h

theorem findPlayerStats_ok_isSome (sj : StatsJson) (pid : String)
    (res : Option PlayerOut) (h : findPlayerStatsInRound sj pid = .ok res) :
    res.isSome = inFirstRoundRoster sj pid := by
  unfold findPlayerStatsInRound at h
  unfold inFirstRoundRoster
  cases hr : sj.rounds with
  | nil =>
      rw [hr] at h
      have h2 : Except.ok (none : Option PlayerOut) = Except.ok res := h
      injection h2 with h3
      subst h3
      rfl
  | cons r0 rest =>
      rw [hr] at h
      exact findInTeams_ok_isSome pid r0.teams res h

theorem findPlayerStats_some_extract (sj : StatsJson) (pid : String)
    (out : PlayerOut) (h : findPlayerStatsInRound sj pid = .ok (some out)) :
    ∃ p : StatsPlayer, extractPlayerStats p.nickname p.player_stats = .ok out := by
  unfold findPlayerStatsInRound at h
  cases hr : sj.rounds with
  | nil =>
      rw [hr] at h
      have h2 : Except.ok (none : Option PlayerOut) = Except.ok (some out) := h
      injection h2 with h3
      exact Option.noConfusion h3
  | cons r0 rest =>
      rw [hr] at h
      exact findInTeams_some_extract pid r0.teams out h

end ProTracker

namespace ProTracker

theorem matchesLoop_cons_ok (e : Env) (pid : String) (it : HistoryItem)
    (rest : List HistoryItem) (recs : List MatchRecord)
    (h : matchesLoop e pid (it :: rest) = .ok recs) :
    ∃ rec recs2, recs = rec :: recs2 ∧ rec.match_id = it.match_id ∧
      rec.started_at = it.started_at ∧ rec.finished_at = it.finished_at ∧
      rec.game = it.game.getD "cs2" ∧ matchesLoop e pid rest = .ok recs2 := by
  cases hms : getMatchStats e it.match_id with
  | error err => simp [matchesLoop, hms] at h
  | ok pr =>
      obtain ⟨sjo, r⟩ := pr
      cases sjo with
      | some sj =>
          cases hf : findPlayerStatsInRound sj pid with
          | error err => simp [matchesLoop, hms, hf] at h
          | ok ps =>
              cases hl : matchesLoop e pid rest with
              | error err => simp [matchesLoop, hms, hf, hl] at h
              | ok recs2 =>
                  simp only [matchesLoop, hms, hf, hl, Except.ok.injEq] at h
                  exact ⟨statsPathRecord it (extractSummaryFromStats sj) ps, recs2,
                    h.symm, rfl, rfl, rfl, rfl, rfl⟩
      | none =>
          cases hb : getMatchBasic e it.match_id with
          | error err => simp [matchesLoop, hms, hb] at h
          | ok pr2 =>
              obtain ⟨mj, r2⟩ := pr2
              cases hl : matchesLoop e pid rest with
              | error err => simp [matchesLoop, hms, hb, hl] at h
              | ok recs2 =>
                  simp only [matchesLoop, hms, hb, hl, Except.ok.injEq] at h
                  exact ⟨fallbackRecord it
                      (extractSummaryFromMatch (mj.getD MatchJson.empty)) r, recs2,
                    h.symm, rfl, rfl, rfl, rfl, rfl⟩

end ProTracker

namespace ProTracker

theorem statGet_mem_or_default (ps : List (String × PyVal)) (name : String)
    (d : PyVal) : statGet ps name d = d ∨ ∃ kv ∈ ps, statGet ps name d = kv.2 := by
  unfold statGet dictGet
  cases hf : ps.find? (fun p => p.1 = name) with
  | none => left; rfl
  | some kv => right; exact ⟨kv, List.mem_of_find?_eq_some hf, rfl⟩

theorem safeVal_statGet (ps : List (String × PyVal))
    (hps : ∀ kv ∈ ps, safeVal kv.2 = true) (name : String) (d : PyVal)
    (hd : safeVal d = true) : safeVal (statGet ps name d) = true := by
  rcases statGet_mem_or_default ps name d with h | ⟨kv, hm, h⟩
  · rw [h]; exact hd
  · rw [h]; exact hps kv hm

theorem pyInt_pyOr_ok (v : PyVal) (hv : safeVal v = true) :
    ∃ n, pyInt (pyOr v (.vInt 0)) = .ok n := by
  unfold pyOr
  by_cases ht : pyTruthy v = true
  · rw [if_pos ht]
    simp only [safeVal, Bool.or_eq_true, Bool.and_eq_true, Bool.not_eq_true'] at hv
    rcases hv with hv | ⟨hv1, hv2⟩
    · rw [ht] at hv; exact Bool.noConfusion hv
    · exact (isOkE_iff (pyInt v)).mp hv1
  · rw [if_neg ht]
    exact ⟨0, rfl⟩

theorem pyFloat_pyOr_ok (v : PyVal) (hv : safeVal v = true) :
    ∃ q, pyFloat (pyOr v (.vFloat 0)) = .ok q := by
  unfold pyOr
  by_cases ht : pyTruthy v = true
  · rw [if_pos ht]
    simp only [safeVal, Bool.or_eq_true, Bool.and_eq_true, Bool.not_eq_true'] at hv
    rcases hv with hv | ⟨hv1, hv2⟩
    · rw [ht] at hv; exact Bool.noConfusion hv
    · exact (isOkE_iff (pyFloat v)).mp hv2
  · rw [if_neg ht]
    exact ⟨0, rfl⟩

theorem httpGetGo_used_le (f : Nat → Attempt) (remaining : Nat) :
    ∀ (used : Nat) (sleeps : List ℚ),
      (httpGetGo f remaining used sleeps).attemptsUsed ≤ used + remaining := by
  induction remaining with
  | zero => intro used sleeps; simp [httpGetGo]
  | succ n ih =>
      intro used sleeps
      cases hf : f used with
      | resp s text =>
          simp only [httpGetGo, hf]
          by_cases hr : retryableStatus s = true
          · rw [if_pos hr]
            exact le_trans (ih (used + 1) _) (by omega)
          · rw [if_neg hr]
            simp
      | netExc =>
          simp only [httpGetGo, hf]
          by_cases h2 : used = 2
          · rw [if_pos h2]
            simp
          · rw [if_neg h2]
            exact le_trans (ih (used + 1) _) (by omega)

end ProTracker

namespace ProTracker

/-- C1 (amended): on the statistics path of `matches_with_stats`, the
emitted record's `player` is present exactly when the requesting player
id appears in a first-round roster, but `stats_unavailable_reason` is
always absent there — the code emits `None if player_stats else None`,
never `"player_not_in_roster"`. -/
theorem C1_stats_path_reason (e : Env) (pid : String) (it : HistoryItem)
    (rest : List HistoryItem) (sj : StatsJson) (r : Option String)
    (rec : MatchRecord) (recs : List MatchRecord)
    (hstats : getMatchStats e it.match_id = .ok (some sj, r))
    (hloop : matchesLoop e pid (it :: rest) = .ok (rec :: recs)) :
    rec.player.isSome = inFirstRoundRoster sj pid ∧
    rec.stats_unavailable_reason = none := by
  cases hf : findPlayerStatsInRound sj pid with
  | error err => simp [matchesLoop, hstats, hf] at hloop
  | ok ps =>
      cases hl : matchesLoop e pid rest with
      | error err => simp [matchesLoop, hstats, hf, hl] at hloop
      | ok recs2 =>
          simp only [matchesLoop, hstats, hf, hl, Except.ok.injEq,
            List.cons.injEq] at hloop
          obtain ⟨h3, h4⟩ := hloop
          subst h3
          constructor
          · exact findPlayerStats_ok_isSome sj pid ps hf
          · cases ps <;> rfl

unseal Rat.add Rat.mul Rat.inv Rat.sub in
/-- C1 witness: a concrete run where the statistics payload contains
the requesting player. -/
theorem C1_stats_path_reason_wit :
    recW1.player.isSome = inFirstRoundRoster sjRoster "p1" ∧
    recW1.stats_unavailable_reason = none :=
  C1_stats_path_reason envW1 "p1" itM1 [] sjRoster none recW1 []
    (by decide) (by decide)

unseal Rat.add Rat.mul Rat.inv Rat.sub in
/-- C1 counterexample: statistics for "M1" are retrieved (status 200)
and "p1" is in no roster, yet the emitted record has both `player` and
`stats_unavailable_reason` absent — not `"player_not_in_roster"`. -/
theorem C1_reason_cex :
    envC1.statsResp (some "M1") = .resp 200 sjNoPlayer "" ∧
    inFirstRoundRoster sjNoPlayer "p1" = false ∧
    (matchesWithStats envC1 "p1").map (List.map MatchRecord.player) = .ok [none] ∧
    (matchesWithStats envC1 "p1").map (List.map MatchRecord.stats_unavailable_reason) =
      .ok [none] :=
  ⟨rfl, by decide, by decide, by decide⟩

/-- C2 (amended): a statistics fetch failing with anything other than
200/403/404 raises, and the exception aborts the whole batch — no
record is emitted for any match of the batch. -/
theorem C2_fatal_aborts_batch (e : Env) (pid : String) (it : HistoryItem)
    (rest : List HistoryItem) (err : Err)
    (h : getMatchStats e it.match_id = .error err) :
    matchesLoop e pid (it :: rest) = .error err := by
  simp [matchesLoop, h]

unseal Rat.add Rat.mul Rat.inv Rat.sub in
/-- C2 witness: the fatal 400 on "M1" aborts the two-match batch. -/
theorem C2_fatal_aborts_batch_wit :
    matchesLoop envC2 "p1" [itM1, itM2] = .error (.httpExc 400 "bad") :=
  C2_fatal_aborts_batch envC2 "p1" itM1 [itM2] (.httpExc 400 "bad") (by decide)

unseal Rat.add Rat.mul Rat.inv Rat.sub in
/-- C2 counterexample: "M1"'s statistics fetch returns 400 while "M2"
is fully available, yet the endpoint returns the error — the result
list containing "M2" is never produced. -/
theorem C2_batch_cex :
    getHistory envC2 = .ok [itM1, itM2] ∧
    envC2.statsResp (some "M2") = .resp 200 sjRoster "" ∧
    matchesWithStats envC2 "p1" = .error (.httpExc 400 "bad") :=
  ⟨by decide, rfl, by decide⟩

/-- C3 (amended): emitted match records carry no `won` field at all —
the key set of both emitted dict literals is exactly `matchRecordKeys`,
which does not contain `"won"`; no win/loss determination or team-score
parsing is performed. -/
theorem C3_record_keys :
    matchRecordKeys =
      ["match_id", "game", "started_at", "finished_at", "map", "score",
       "teams", "player", "stats_unavailable_reason"] ∧
    matchRecordKeys.contains "won" = false :=
  ⟨rfl, by decide⟩

unseal Rat.add Rat.mul Rat.inv Rat.sub in
/-- C3 counterexample: a run that emits a record, whose key set lacks
`"won"`. -/
theorem C3_no_won_cex :
    matchRecordKeys.contains "won" = false ∧
    (matchesWithStats envC1 "p1").map List.length = .ok 1 :=
  ⟨by decide, by decide⟩

end ProTracker

namespace ProTracker

/-- C4: the spec-modelled Rating Estimator is absent exactly when
`kills <= 0` or `killsPerRound <= 0`, and otherwise computes the
primary formula — rounds played `max(kills/killsPerRound, deaths, 1)`,
deaths-per-round clamped to `[0, 1.5]`, the unweighted average of the
three normalized components clamped to `[0.1, 2.5]` and rounded to two
decimals.  Determinism is immediate: it is a pure function. -/
theorem C4_estimator_formula (kills deaths killsPerRound adr : ℚ) :
    (estimateRating kills deaths killsPerRound adr = none ↔
      kills ≤ 0 ∨ killsPerRound ≤ 0) ∧
    (0 < kills → 0 < killsPerRound →
      estimateRating kills deaths killsPerRound adr =
        some (round2 (clampQ
          ((killsPerRound / (679 / 1000) +
            (1 - clampQ (deaths / max (kills / killsPerRound) (max deaths 1)) 0 (3 / 2)) /
              (1 - 317 / 1000) +
            adr / 85) / 3)
          (1 / 10) (5 / 2)))) := by
  constructor
  · constructor
    · intro h
      by_contra hc
      unfold estimateRating at h
      rw [if_neg hc] at h
      exact Option.noConfusion h
    · intro h
      unfold estimateRating
      rw [if_pos h]
  · intro h1 h2
    unfold estimateRating
    rw [if_neg (by push_neg; exact ⟨h1, h2⟩)]

unseal Rat.add Rat.mul Rat.inv Rat.sub in
/-- C4 witness: the spec's own test vector `estimate(kills=20,
deaths=10, killsPerRound=0.85, adr=90)` evaluates to 1.05, inside
`[0.1, 2.5]`. -/
theorem C4_estimator_formula_wit :
    estimateRating 20 10 (17 / 20) 90 = some (21 / 20) ∧
    (1 / 10 : ℚ) ≤ 21 / 20 ∧ (21 / 20 : ℚ) ≤ 5 / 2 := by
  have h := (C4_estimator_formula 20 10 (17 / 20) 90).2 (by norm_num) (by norm_num)
  exact ⟨by rw [h]; decide, by norm_num, by norm_num⟩

/-- C5 (amended): stat extraction cannot raise on values that are
falsy or numeric — they degrade through the `or 0` fallback — but it
offers no protection against truthy non-numeric strings (Python
`int`/`float` raise `ValueError` and nothing catches it), and no
trailing-"%" stripping is performed anywhere. -/
theorem C5_extract_total_on_safe (nick : Option String)
    (ps : List (String × PyVal)) (hps : ∀ kv ∈ ps, safeVal kv.2 = true) :
    isOkE (extractPlayerStats nick ps) = true := by
  have hKills : safeVal (statGet ps "Kills" (statGet ps "K" (.vInt 0))) = true :=
    safeVal_statGet ps hps "Kills" _ (safeVal_statGet ps hps "K" _ (by decide))
  have hDeaths : safeVal (statGet ps "Deaths" (.vInt 0)) = true :=
    safeVal_statGet ps hps "Deaths" _ (by decide)
  have hAssists : safeVal (statGet ps "Assists" (.vInt 0)) = true :=
    safeVal_statGet ps hps "Assists" _ (by decide)
  have hADR : safeVal (statGet ps "ADR" (.vFloat 0)) = true :=
    safeVal_statGet ps hps "ADR" _ (by decide)
  have hHS : safeVal (statGet ps "Headshots %" (statGet ps "HS %" (.vFloat 0))) = true :=
    safeVal_statGet ps hps "Headshots %" _ (safeVal_statGet ps hps "HS %" _ (by decide))
  have hKR : safeVal (statGet ps "K/R Ratio" (.vFloat 0)) = true :=
    safeVal_statGet ps hps "K/R Ratio" _ (by decide)
  obtain ⟨k1, e1⟩ := pyInt_pyOr_ok _ hKills
  obtain ⟨k2, e2⟩ := pyInt_pyOr_ok _ hDeaths
  obtain ⟨k3, e3⟩ := pyInt_pyOr_ok _ hAssists
  obtain ⟨q4, e4⟩ := pyFloat_pyOr_ok _ hADR
  obtain ⟨q5, e5⟩ := pyFloat_pyOr_ok _ hHS
  obtain ⟨q6, e6⟩ := pyFloat_pyOr_ok _ hKR
  simp only [extractPlayerStats, e1, e2, e3, e4, e5, e6, isOkE]

/-- C5 witness: a mapping of numeric and falsy values extracts without
raising. -/
theorem C5_extract_total_on_safe_wit :
    isOkE (extractPlayerStats (some "w")
      [("Kills", .vStr "21"), ("Deaths", .vInt 7), ("ADR", .vNone)]) = true :=
  C5_extract_total_on_safe (some "w") _ (by decide)

/-- C5 counterexample: a non-numeric string raises `ValueError`, and a
value with a trailing "%" raises instead of being stripped and
parsed. -/
theorem C5_raise_cex :
    extractPlayerStats (some "x") [("Kills", .vStr "abc")] =
      .error (.valueError "abc") ∧
    extractPlayerStats (some "x") [("ADR", .vStr "85%")] =
      .error (.valueError "85%") :=
  ⟨by decide, by decide⟩

unseal Rat.add Rat.mul Rat.inv Rat.sub in
/-- C6 (amended): only the label "K/R Ratio" is probed for
kills-per-round; payloads that carry the value under "K/R" or "KR"
yield the default 0.0, so the historically-observed variants do not
extract the same value. -/
theorem C6_kr_single_label (nick : Option String) (q : ℚ) (hq : q ≠ 0) :
    (extractPlayerStats nick [("K/R Ratio", .vFloat q)]).map PlayerOut.kr =
      .ok (round2 q) ∧
    (extractPlayerStats nick [("K/R", .vFloat q)]).map PlayerOut.kr = .ok 0 ∧
    (extractPlayerStats nick [("KR", .vFloat q)]).map PlayerOut.kr = .ok 0 := by
  have hT : pyTruthy (.vFloat q) = true := by simp [pyTruthy, hq]
  refine ⟨?_, ?_, ?_⟩
  · have hOr : pyOr (statGet [("K/R Ratio", PyVal.vFloat q)] "K/R Ratio"
        (PyVal.vFloat 0)) (PyVal.vFloat 0) = PyVal.vFloat q := by
      show pyOr (PyVal.vFloat q) (PyVal.vFloat 0) = PyVal.vFloat q
      unfold pyOr
      rw [if_pos hT]
    unfold extractPlayerStats
    rw [hOr]
    rfl
  · rfl
  · rfl

unseal Rat.add Rat.mul Rat.inv Rat.sub in
/-- C6 witness-style instance at value 0.8: "K/R Ratio" extracts 0.8
while "K/R" and "KR" extract 0. -/
theorem C6_kr_single_label_wit :
    (extractPlayerStats (some "x") [("K/R Ratio", .vFloat (4 / 5))]).map
      PlayerOut.kr = .ok (4 / 5) := by
  have h := (C6_kr_single_label (some "x") (4 / 5) (by norm_num)).1
  rw [h]
  decide

unseal Rat.add Rat.mul Rat.inv Rat.sub in
/-- C6 counterexample: the same kills-per-round value 0.8 under the
variants "K/R Ratio", "K/R" and "KR" extracts to 0.8, 0 and 0
respectively — and 0.8 is not 0. -/
theorem C6_kr_variants_cex :
    (extractPlayerStats (some "x") [("K/R Ratio", .vFloat (4 / 5))]).map
      PlayerOut.kr = .ok (4 / 5) ∧
    (extractPlayerStats (some "x") [("K/R", .vFloat (4 / 5))]).map
      PlayerOut.kr = .ok 0 ∧
    (extractPlayerStats (some "x") [("KR", .vFloat (4 / 5))]).map
      PlayerOut.kr = .ok 0 ∧
    (decide ((4 : ℚ) / 5 = 0)) = false :=
  ⟨by decide, by decide, by decide, by decide⟩

end ProTracker

namespace ProTracker

/-- C7: a 403 or 404 from the statistics endpoint makes
`get_match_stats` yield no payload with reason
`"not_ready_or_hidden"`, and the enrichment loop then emits the match
through the basic fallback with `player` absent and that reason — the
match is neither dropped nor does its statistics failure raise. -/
theorem C7_not_ready_fallback (e : Env) (pid : String) (it : HistoryItem)
    (rest : List HistoryItem) (s : Nat) (body : StatsJson) (text : String)
    (rec : MatchRecord) (recs : List MatchRecord)
    (hkey : e.hasKey = true)
    (hresp : e.statsResp it.match_id = .resp s body text)
    (hs : s = 403 ∨ s = 404) :
    getMatchStats e it.match_id = .ok (none, some "not_ready_or_hidden") ∧
    (matchesLoop e pid (it :: rest) = .ok (rec :: recs) →
      rec.player = none ∧
      rec.stats_unavailable_reason = some "not_ready_or_hidden" ∧
      rec.match_id = it.match_id) := by
  have h1 : getMatchStats e it.match_id = .ok (none, some "not_ready_or_hidden") := by
    rcases hs with rfl | rfl <;> simp [getMatchStats, checkKey, hkey, hresp]
  refine ⟨h1, fun hloop => ?_⟩
  cases hb : getMatchBasic e it.match_id with
  | error err => simp [matchesLoop, h1, hb] at hloop
  | ok pr =>
      obtain ⟨mj, r2⟩ := pr
      cases hl : matchesLoop e pid rest with
      | error err => simp [matchesLoop, h1, hb, hl] at hloop
      | ok recs2 =>
          simp only [matchesLoop, h1, hb, hl, Except.ok.injEq,
            List.cons.injEq] at hloop
          obtain ⟨h3, h4⟩ := hloop
          subst h3
          exact ⟨rfl, rfl, rfl⟩

unseal Rat.add Rat.mul Rat.inv Rat.sub in
/-- C7 witness: a concrete 403 on "M1" with the basic endpoint
available emits exactly such a record. -/
theorem C7_not_ready_fallback_wit :
    recC7.player = none ∧
    recC7.stats_unavailable_reason = some "not_ready_or_hidden" ∧
    recC7.match_id = some "M1" := by
  have h := C7_not_ready_fallback envC7 "p1" itM1 [] 403 { rounds := [] }
    "forbidden" recC7 [] rfl rfl (Or.inl rfl)
  have h2 := h.2 (by decide)
  exact ⟨h2.1, h2.2.1, h2.2.2⟩

/-- C8: when the endpoint returns successfully, the emitted records
correspond position-wise to the fetched history items — same order,
same `match_id`, `started_at` and `finished_at`, same length —
regardless of which enrichment path each match took. -/
theorem C8_order_preserved (e : Env) (pid : String) (items : List HistoryItem)
    (recs : List MatchRecord) (hh : getHistory e = .ok items)
    (hrun : matchesWithStats e pid = .ok recs) :
    recs.map MatchRecord.match_id = items.map HistoryItem.match_id ∧
    recs.map MatchRecord.started_at = items.map HistoryItem.started_at ∧
    recs.map MatchRecord.finished_at = items.map HistoryItem.finished_at ∧
    recs.length = items.length := by
  have hloop : matchesLoop e pid items = .ok recs := by
    unfold matchesWithStats at hrun
    rw [hh] at hrun
    exact hrun
  clear hrun hh
  induction items generalizing recs with
  | nil =>
      have h2 : Except.ok ([] : List MatchRecord) = Except.ok recs := hloop
      injection h2 with h3
      subst h3
      simp
  | cons it rest ih =>
      obtain ⟨rec, recs2, rfl, hm, hs, hf, hg, hl⟩ :=
        matchesLoop_cons_ok e pid it rest recs hloop
      obtain ⟨ih1, ih2, ih3, ih4⟩ := ih recs2 hl
      simp [hm, hs, hf, ih1, ih2, ih3, ih4]

unseal Rat.add Rat.mul Rat.inv Rat.sub in
/-- C8 witness: a two-match batch where "M1" is enriched from
statistics and "M2" through the basic fallback still comes out in
history order. -/
theorem C8_order_preserved_wit :
    recsW8.map MatchRecord.match_id = [some "M1", some "M2"] := by
  have h := C8_order_preserved envW8 "p1" [itM1, itM2] recsW8 (by decide) (by decide)
  rw [h.1]
  rfl

/-- C10: the kill/death ratio of an extracted stat line never divides
by zero — with zero deaths it is the kill count as a float, otherwise
kills divided by deaths rounded to two decimals. -/
theorem C10_kd_no_div_by_zero (sj : StatsJson) (pid : String) (out : PlayerOut)
    (h : findPlayerStatsInRound sj pid = .ok (some out)) :
    (out.deaths = 0 → out.kd = (out.kills : ℚ)) ∧
    (out.deaths ≠ 0 → out.kd = round2 ((out.kills : ℚ) / (out.deaths : ℚ))) := by
  obtain ⟨p, hp⟩ := findPlayerStats_some_extract sj pid out h
  have hkd := extract_ok_kd p.nickname p.player_stats out hp
  constructor
  · intro hz
    rw [hkd, hz]
    exact computeKd_zero out.kills
  · intro hz
    rw [hkd]
    exact computeKd_ne out.kills out.deaths hz

unseal Rat.add Rat.mul Rat.inv Rat.sub in
/-- C10 witness: "p1"'s stat line in the fixture payload has 14 deaths
and kd = round2(22/14). -/
theorem C10_kd_no_div_by_zero_wit :
    outW10.kd = round2 ((outW10.kills : ℚ) / (outW10.deaths : ℚ)) :=
  (C10_kd_no_div_by_zero sjRoster "p1" outW10 (by decide)).2 (by decide)

end ProTracker

namespace ProTracker

/-- C9 (amended): `http_get` consumes at most 3 attempts (2 additional
retries); a first response with a status outside `{429, 500, 502, 503,
504}` — any other 4xx, but also the remaining 5xx codes such as 501 —
is returned immediately with no retry and no back-off sleep; three
retryable responses exhaust the budget with linear back-off `0.6·(a+1)`
and surface the 502 `HTTPException`; three network exceptions back off
`0.4·(a+1)` twice and re-raise. -/
theorem C9_retry_policy (f : Nat → Attempt) :
    (httpGet f).attemptsUsed ≤ 3 ∧
    (∀ s t, f 0 = .resp s t → retryableStatus s = false →
      httpGet f = { result := .ok (s, t), sleeps := [], attemptsUsed := 1 }) ∧
    (∀ t0 t1 t2, f 0 = .resp 429 t0 → f 1 = .resp 429 t1 → f 2 = .resp 429 t2 →
      httpGet f =
        { result := .error (.httpExc 502 "Network error when calling Faceit API")
          sleeps := [6 / 10, 12 / 10, 18 / 10]
          attemptsUsed := 3 }) ∧
    (f 0 = .netExc → f 1 = .netExc → f 2 = .netExc →
      httpGet f =
        { result := .error .requestExc
          sleeps := [4 / 10, 8 / 10]
          attemptsUsed := 3 }) := by
  refine ⟨httpGetGo_used_le f 3 0 [], ?_, ?_, ?_⟩
  · intro s t h0 hr
    unfold httpGet
    simp [httpGetGo, h0, hr]
  · intro t0 t1 t2 h0 h1 h2
    unfold httpGet
    simp [httpGetGo, h0, h1, h2, retryableStatus]
    norm_num
  · intro h0 h1 h2
    unfold httpGet
    simp [httpGetGo, h0, h1, h2]
    norm_num

/-- C9 witness: a first-attempt 404 is returned immediately, one
attempt consumed, no sleeps. -/
theorem C9_retry_policy_wit :
    httpGet (fun _ => .resp 404 "nf") =
      { result := .ok (404, "nf"), sleeps := [], attemptsUsed := 1 } :=
  (C9_retry_policy (fun _ => .resp 404 "nf")).2.1 404 "nf" rfl (by decide)

/-- C9 counterexample: 501 is a 5xx status, yet the response is
returned to the caller on the first attempt — no retry, no back-off
sleep. -/
theorem C9_5xx_cex :
    retryableStatus 501 = false ∧
    httpGet (fun _ => .resp 501 "ni") =
      { result := .ok (501, "ni"), sleeps := [], attemptsUsed := 1 } :=
  ⟨by decide, by decide⟩

end ProTracker
